import Mathlib

/-!
Verification of the order-submission flow of the Webforx online storeshop
(`src/app.js`).  The server-side logic embedded here:

* the `POST /checkout` handler (app.js lines 340-373): parse the `cartData`
  form field with `JSON.parse(cartData || '[]')`, reject non-arrays and empty
  arrays with 400 "Cart is empty" and parse failures with 400 "Invalid cart
  data", compute `total = cartItems.reduce((sum, item) => sum + item.price *
  item.quantity, 0)`, then save one Order row with nested OrderItem rows
  (snapshotting `name`, `price`, `quantity`); a storage failure yields
  500 "Error processing order";
* the startup seed block (app.js lines 380-397): insert the default products
  only when the product table is empty;
* the readiness probe (app.js line 204).

Modelling conventions: JavaScript numbers are rationals, with `none : Option ℚ`
standing for NaN (undefined entering arithmetic yields NaN); `JSON.parse` is an
external platform function, so the handler is parameterised by a
`parse : String → Option Json` oracle (`none` = the parse throws); the ORM
cascade `save` runs Order + OrderItems in one transaction, modelled as a single
atomic state update that either happens (`storageOk = true`) or does not.
-/

namespace Storeshop

/-- JSON values as produced by `JSON.parse`. -/
inductive Json where
  | null : Json
  | bool : Bool → Json
  | num : ℚ → Json
  | str : String → Json
  | arr : List Json → Json
  | obj : List (String × Json) → Json

/-- JavaScript property access `j.k` on a parsed JSON value; `none` models
`undefined`.  `JSON.parse` keeps the last duplicate key, so lookup takes the
last binding. -/
def Json.getField : Json → String → Option Json
  | .obj fields, k => fields.foldl (fun acc p => if p.1 = k then some p.2 else acc) none
  | _, _ => none

/-- Coercion of a possibly-undefined value into JavaScript arithmetic;
`none` models NaN (`undefined * x` is NaN).  Non-numeric JSON values are
also modelled as NaN; no checkout claim supplies one. -/
def jsToNum : Option Json → Option ℚ
  | some (.num q) => some q
  | _ => none

/-- JavaScript `+` on numbers-or-NaN. -/
def jsAdd : Option ℚ → Option ℚ → Option ℚ
  | some a, some b => some (a + b)
  | _, _ => none

/-- JavaScript `*` on numbers-or-NaN. -/
def jsMul : Option ℚ → Option ℚ → Option ℚ
  | some a, some b => some (a * b)
  | _, _ => none

/-- A row of `order_items`: `productName`, `productPrice`, `quantity` are the
raw values snapshotted off the cart item (`undefined` possible). -/
structure OrderItemRow where
  productName : Option Json
  productPrice : Option Json
  quantity : Option Json

/-- A row of `orders` together with its owned `order_items` rows (the ORM
cascade persists them as one aggregate). -/
structure OrderRow where
  id : ℕ
  name : Option String
  address : Option String
  total : Option ℚ
  orderItems : List OrderItemRow

/-- A row of `products`. -/
structure ProductRow where
  id : ℕ
  name : String
  price : ℚ
  image : String
  deriving DecidableEq

/-- The relational store: the three tables plus the generated-id counters. -/
structure DB where
  products : List ProductRow
  orders : List OrderRow
  nextProductId : ℕ
  nextOrderId : ℕ

/-- An HTTP response: status code and body (for HTML pages, the body text the
claims mention). -/
structure Response where
  status : ℕ
  body : String
  deriving DecidableEq

/-- app.js line 346: `res.status(400).send('Invalid cart data')`. -/
def invalidCartResponse : Response := ⟨400, "Invalid cart data"⟩

/-- app.js line 349: `res.status(400).send('Cart is empty')`. -/
def emptyCartResponse : Response := ⟨400, "Cart is empty"⟩

/-- app.js line 371: `res.status(500).send('Error processing order')`. -/
def storageErrorResponse : Response := ⟨500, "Error processing order"⟩

/-- The text of the confirmation page (app.js lines 362-368), which embeds the
generated order id. -/
def confirmationBody (id : ℕ) : String :=
  "Thank you for your order! Your order ID is " ++ toString id ++ "."

/-- app.js line 351, one step of the reduce: `item.price * item.quantity`. -/
def lineTotal (item : Json) : Option ℚ :=
  jsMul (jsToNum (item.getField "price")) (jsToNum (item.getField "quantity"))

/-- app.js line 351: `cartItems.reduce((sum, item) => sum + item.price *
item.quantity, 0)`. -/
def cartTotal (cartItems : List Json) : Option ℚ :=
  cartItems.foldl (fun sum item => jsAdd sum (lineTotal item)) (some 0)

/-- app.js line 359: `cartItems.map(i => ({ productName: i.name, productPrice:
i.price, quantity: i.quantity }))`. -/
def snapshotItem (i : Json) : OrderItemRow :=
  { productName := i.getField "name"
    productPrice := i.getField "price"
    quantity := i.getField "quantity" }

/-- app.js line 344: the argument of `JSON.parse(cartData || '[]')`.  An absent
field (`undefined`) and the empty string are the falsy cases a form field can
produce, so both default to the literal `'[]'`. -/
def effectiveCartData : Option String → String
  | none => "[]"
  | some s => if s = "" then "[]" else s

/-- The `POST /checkout` handler (app.js lines 340-373).  `parse` stands for
the platform's `JSON.parse` (`none` = it throws); `storageOk` tells whether the
ORM's transactional cascade `save` succeeds, and that save is the single atomic
state update of the handler. -/
def checkout (parse : String → Option Json) (name address cartData : Option String)
    (storageOk : Bool) (db : DB) : Response × DB :=
  match parse (effectiveCartData cartData) with
  | none => (invalidCartResponse, db)
  | some json =>
    match json with
    | .arr cartItems =>
      if cartItems.length = 0 then (emptyCartResponse, db)
      else
        let total := cartTotal cartItems
        if storageOk then
          let order : OrderRow :=
            { id := db.nextOrderId
              name := name
              address := address
              total := total
              orderItems := cartItems.map snapshotItem }
          (⟨200, confirmationBody order.id⟩,
            { db with
                orders := db.orders ++ [order]
                nextOrderId := db.nextOrderId + 1 })
        else (storageErrorResponse, db)
    | _ => (emptyCartResponse, db)

/-- A default product, as fed to the startup seed (app.js lines 385-394). -/
structure ProductSeed where
  name : String
  price : ℚ
  image : String
  deriving DecidableEq

/-- `repo.save(defaults)` on the product repository: append one row per seed,
ids generated from the counter. -/
def insertProducts (defaults : List ProductSeed) (db : DB) : DB :=
  { db with
      products := db.products ++
        (List.range defaults.length).zipWith
          (fun n d => ProductRow.mk (db.nextProductId + n) d.name d.price d.image) defaults
      nextProductId := db.nextProductId + defaults.length }

/-- The startup seed block (app.js lines 382-397): `const count = await
repo.count(); if (count === 0) { ... await repo.save(defaults); }`. -/
def seedIfEmpty (defaults : List ProductSeed) (db : DB) : DB :=
  if db.products.length = 0 then insertProducts defaults db else db

/-- The `GET /readyz` handler (app.js line 204): `AppDataSource.isInitialized ?
res.send('ready') : res.status(503).send('not ready')` (Express sends status
200 by default). -/
def readyz (isInitialized : Bool) : Response :=
  if isInitialized then ⟨200, "ready"⟩ else ⟨503, "not ready"⟩

/-! Spec-side reformulations of the amounts, to compare with the handler. -/

/-- The specification's per-line amount: the item's price times its
quantity, read off the cart item. -/
def specLineAmount (i : Json) : ℚ :=
  (jsToNum (i.getField "price")).getD 0 * (jsToNum (i.getField "quantity")).getD 0

/-- The amount an OrderItem row contributes: `productPrice × quantity`. -/
def itemRowAmount (r : OrderItemRow) : ℚ :=
  (jsToNum r.productPrice).getD 0 * (jsToNum r.quantity).getD 0

/-- A cart item carrying a numeric price and a numeric quantity (the shape the
specification calls well-formed). -/
def wellFormedItem (i : Json) : Prop :=
  ∃ p q : ℚ, i.getField "price" = some (.num p) ∧ i.getField "quantity" = some (.num q)

/-! Helper lemmas. -/

theorem lineTotal_isSome_of_wellFormed (i : Json) (h : wellFormedItem i) :
    (lineTotal i).isSome := by
  obtain ⟨p, q, hp, hq⟩ := h
  simp [lineTotal, jsToNum, jsMul, hp, hq]

theorem lineTotal_eq_specLineAmount (i : Json) (h : (lineTotal i).isSome) :
    lineTotal i = some (specLineAmount i) := by
  rcases hp : jsToNum (Json.getField i "price") with _ | p <;>
    rcases hq : jsToNum (Json.getField i "quantity") with _ | q <;>
      simp [lineTotal, jsMul, specLineAmount, hp, hq] at h ⊢

theorem cartTotal_go (items : List Json) (hw : ∀ i ∈ items, (lineTotal i).isSome) :
    ∀ a : ℚ, items.foldl (fun sum item => jsAdd sum (lineTotal item)) (some a)
      = some (a + (items.map specLineAmount).sum) := by
  induction items with
  | nil => intro a; simp
  | cons x xs ih =>
    intro a
    have hx : lineTotal x = some (specLineAmount x) :=
      lineTotal_eq_specLineAmount x (hw x (by simp))
    have ihx := ih (fun i hi => hw i (List.mem_cons_of_mem _ hi))
    have hstep : jsAdd (some a) (lineTotal x) = some (a + specLineAmount x) := by
      rw [hx]; rfl
    rw [List.foldl_cons, hstep, ihx, List.map_cons, List.sum_cons, add_assoc]

theorem cartTotal_eq_sum (items : List Json) (hw : ∀ i ∈ items, (lineTotal i).isSome) :
    cartTotal items = some ((items.map specLineAmount).sum) := by
  simpa [cartTotal] using cartTotal_go items hw 0

theorem itemRowAmount_snapshot (i : Json) :
    itemRowAmount (snapshotItem i) = specLineAmount i := rfl

theorem map_itemRowAmount_snapshot (items : List Json) :
    (items.map snapshotItem).map itemRowAmount = items.map specLineAmount := by
  induction items with
  | nil => rfl
  | cons x xs ih => simp only [List.map_cons, itemRowAmount_snapshot, ih]

/-- What the handler does once the cart has parsed to a non-empty sequence and
the transactional save succeeds (app.js lines 353-368). -/
theorem checkout_accepted (parse : String → Option Json)
    (name address cartData : Option String) (items : List Json) (db : DB)
    (hp : parse (effectiveCartData cartData) = some (.arr items)) (hne : items ≠ []) :
    checkout parse name address cartData true db =
      (⟨200, confirmationBody db.nextOrderId⟩,
        { db with
            orders := db.orders ++
              [{ id := db.nextOrderId, name := name, address := address,
                 total := cartTotal items, orderItems := items.map snapshotItem }]
            nextOrderId := db.nextOrderId + 1 }) := by
  have hlen : items.length ≠ 0 := fun h => hne (List.length_eq_zero.mp h)
  simp [checkout, hp, hlen]

/-! Concrete inputs for the closed checks. -/

/-- A store holding no rows yet. -/
def db0 : DB := { products := [], orders := [], nextProductId := 1, nextOrderId := 1 }

/-- The parsed cart item of the end-to-end example: the WFX Dark Chocolate
product at price 2.50, quantity 3. -/
def chocItemJson : Json :=
  .obj [("id", .num 2), ("name", .str "WFX Dark Chocolate"),
        ("price", .num (5 / 2)), ("quantity", .num 3)]

/-- The example cart as the client serialises it. -/
def chocCartStr : String :=
  "[\x7b\"id\":2,\"name\":\"WFX Dark Chocolate\",\"price\":2.5,\"quantity\":3\x7d]"

/-- A cart item with a client-supplied negative price (the handler trusts the
client's prices). -/
def negItemJson : Json :=
  .obj [("name", .str "x"), ("price", .num (-1)), ("quantity", .num 1)]

/-- The negative-price cart as a JSON string. -/
def negCartStr : String := "[\x7b\"name\":\"x\",\"price\":-1,\"quantity\":1\x7d]"

/-- A concrete stand-in for the `parse` parameter, agreeing with `JSON.parse`
on the finitely many strings the closed checks exercise; any other string is
treated as a parse failure, as it is for the string "not json". -/
def demoParse (s : String) : Option Json :=
  if s = "[]" then some (.arr [])
  else if s = "42" then some (.num 42)
  else if s = chocCartStr then some (.arr [chocItemJson])
  else if s = negCartStr then some (.arr [negItemJson])
  else none

/-! The claims. -/

/-- C1: for every well-formed cart — a `cartData` field parsing to a sequence
of items, each carrying a numeric price and a numeric quantity — a submission
whose save succeeds persists exactly one new Order whose `total` is the sum
over the items of price times quantity, computed server-side (rational
arithmetic is exact, hence within floating-point tolerance). -/
theorem submitOrder_total_correct (parse : String → Option Json)
    (name address cartData : Option String) (items : List Json) (db : DB)
    (hp : parse (effectiveCartData cartData) = some (.arr items)) (hne : items ≠ [])
    (hw : ∀ i ∈ items, wellFormedItem i) :
    (checkout parse name address cartData true db).2.orders =
      db.orders ++
        [{ id := db.nextOrderId, name := name, address := address,
           total := some ((items.map specLineAmount).sum),
           orderItems := items.map snapshotItem }] := by
  rw [checkout_accepted parse name address cartData items db hp hne]
  simp [cartTotal_eq_sum items (fun i hi => lineTotal_isSome_of_wellFormed i (hw i hi))]

/-- Concrete run of C1 on the example cart: the hypotheses hold for the
chocolate cart and the theorem applies. -/
theorem submitOrder_total_correct_witness :
    demoParse (effectiveCartData (some chocCartStr)) = some (.arr [chocItemJson]) ∧
    ([chocItemJson] : List Json) ≠ [] ∧
    (∀ i ∈ [chocItemJson], wellFormedItem i) ∧
    (checkout demoParse (some "Alice") (some "1 Main St") (some chocCartStr) true
        db0).2.orders =
      db0.orders ++
        [{ id := db0.nextOrderId, name := some "Alice", address := some "1 Main St",
           total := some (([chocItemJson].map specLineAmount).sum),
           orderItems := [chocItemJson].map snapshotItem }] :=
  ⟨rfl, by simp,
    fun i hi => by
      rw [List.mem_singleton] at hi
      subst hi
      exact ⟨5 / 2, 3, rfl, rfl⟩,
    submitOrder_total_correct demoParse (some "Alice") (some "1 Main St")
      (some chocCartStr) [chocItemJson] db0 rfl (by simp)
      (fun i hi => by
        rw [List.mem_singleton] at hi
        subst hi
        exact ⟨5 / 2, 3, rfl, rfl⟩)⟩

/-- C2: when the transactional cascade save fails after validation, the store
is left exactly as it was — no Order header and no OrderItem rows become
observable, all-or-nothing — and the client receives the 500 storage error. -/
theorem submitOrder_atomic_on_failure (parse : String → Option Json)
    (name address cartData : Option String) (items : List Json) (db : DB)
    (hp : parse (effectiveCartData cartData) = some (.arr items)) (hne : items ≠ []) :
    (checkout parse name address cartData false db).2 = db ∧
    (checkout parse name address cartData false db).1 = storageErrorResponse := by
  have hlen : items.length ≠ 0 := fun h => hne (List.length_eq_zero.mp h)
  constructor <;> simp [checkout, hp, hlen]

/-- Concrete run of C2: a failing save on the example cart changes nothing and
answers 500. -/
theorem submitOrder_atomic_on_failure_witness :
    demoParse (effectiveCartData (some chocCartStr)) = some (.arr [chocItemJson]) ∧
    ([chocItemJson] : List Json) ≠ [] ∧
    ((checkout demoParse (some "Alice") (some "1 Main St") (some chocCartStr) false
        db0).2 = db0 ∧
      (checkout demoParse (some "Alice") (some "1 Main St") (some chocCartStr) false
        db0).1 = storageErrorResponse) :=
  ⟨rfl, by simp,
    submitOrder_atomic_on_failure demoParse (some "Alice") (some "1 Main St")
      (some chocCartStr) [chocItemJson] db0 rfl (by simp)⟩

/-- C4: a submission whose cart parses to the empty sequence is answered with
the 400 empty-cart response and nothing is persisted. -/
theorem submitOrder_empty_cart (parse : String → Option Json)
    (name address cartData : Option String) (storageOk : Bool) (db : DB)
    (hp : parse (effectiveCartData cartData) = some (.arr [])) :
    checkout parse name address cartData storageOk db = (emptyCartResponse, db) := by
  simp [checkout, hp]

/-- Concrete run of C4 on the literal empty-array cart. -/
theorem submitOrder_empty_cart_witness :
    demoParse (effectiveCartData (some "[]")) = some (.arr []) ∧
    checkout demoParse (some "Alice") (some "1 Main St") (some "[]") true db0 =
      (emptyCartResponse, db0) :=
  ⟨rfl, submitOrder_empty_cart demoParse (some "Alice") (some "1 Main St")
    (some "[]") true db0 rfl⟩

/-- C9: an absent `cartData` field defaults to the literal string of the empty
array, so the handler answers with the empty-cart 400 — which is not the
invalid-input response — and persists nothing. -/
theorem submitOrder_missing_cart_defaults (parse : String → Option Json)
    (name address : Option String) (storageOk : Bool) (db : DB)
    (hp : parse "[]" = some (.arr [])) :
    checkout parse name address none storageOk db = (emptyCartResponse, db) ∧
      emptyCartResponse ≠ invalidCartResponse := by
  refine ⟨?_, by decide⟩
  simp [checkout, effectiveCartData, hp]

/-- Concrete run of C9: a request with no `cartData` field at all. -/
theorem submitOrder_missing_cart_defaults_witness :
    demoParse "[]" = some (.arr []) ∧
    (checkout demoParse (some "Alice") (some "1 Main St") none true db0 =
        (emptyCartResponse, db0) ∧
      emptyCartResponse ≠ invalidCartResponse) :=
  ⟨rfl, submitOrder_missing_cart_defaults demoParse (some "Alice") (some "1 Main St")
    true db0 rfl⟩

/-- C3 counterexample: the string of the number 42 is valid JSON but not a
sequence, and the handler answers it with 400 "Cart is empty" — not the
invalid-input response the claim requires for every non-sequence input. -/
theorem submitOrder_malformed_cex :
    checkout demoParse (some "Alice") (some "1 Main St") (some "42") true db0 =
      (emptyCartResponse, db0) ∧ emptyCartResponse ≠ invalidCartResponse :=
  ⟨rfl, by decide⟩

/-- C3 (amended): a non-empty `cartData` string that is not valid JSON is
rejected with 400 "Invalid cart data", while one that parses to a JSON value
that is not a sequence is rejected with 400 "Cart is empty"; in both cases
nothing is persisted. -/
theorem submitOrder_malformed_rejected (parse : String → Option Json)
    (name address : Option String) (s : String) (storageOk : Bool) (db : DB)
    (hs : s ≠ "") :
    (parse s = none →
      checkout parse name address (some s) storageOk db = (invalidCartResponse, db)) ∧
    (∀ j, parse s = some j → (∀ xs, j ≠ Json.arr xs) →
      checkout parse name address (some s) storageOk db = (emptyCartResponse, db)) := by
  have he : effectiveCartData (some s) = s := by simp [effectiveCartData, hs]
  constructor
  · intro hp
    simp [checkout, he, hp]
  · intro j hp hj
    cases j with
    | arr xs => exact absurd rfl (hj xs)
    | null => simp [checkout, he, hp]
    | bool b => simp [checkout, he, hp]
    | num q => simp [checkout, he, hp]
    | str t => simp [checkout, he, hp]
    | obj fs => simp [checkout, he, hp]

/-- Concrete run of the amended C3: "not json" does not parse and "42" parses
to a non-sequence. -/
theorem submitOrder_malformed_rejected_witness :
    ("not json" : String) ≠ "" ∧
    ((demoParse "not json" = none →
        checkout demoParse (some "Alice") (some "1 Main St") (some "not json") true db0 =
          (invalidCartResponse, db0)) ∧
      (∀ j, demoParse "not json" = some j → (∀ xs, j ≠ Json.arr xs) →
        checkout demoParse (some "Alice") (some "1 Main St") (some "not json") true db0 =
          (emptyCartResponse, db0))) :=
  ⟨by decide,
    submitOrder_malformed_rejected demoParse (some "Alice") (some "1 Main St")
      "not json" true db0 (by decide)⟩

/-- C5 counterexample: the handler trusts the client-supplied price, so a cart
holding one item with price −1 and quantity 1 is accepted and persists an
Order whose total, −1, is negative. -/
theorem order_total_nonneg_cex :
    ((checkout demoParse (some "Alice") (some "1 Main St") (some negCartStr) true
        db0).2.orders.map OrderRow.total) = [some (-1)] ∧ ((-1 : ℚ) < 0) := by
  constructor
  · rw [checkout_accepted demoParse (some "Alice") (some "1 Main St") (some negCartStr)
        [negItemJson] db0 rfl (by simp)]
    simp [db0, cartTotal, lineTotal, negItemJson, Json.getField, jsToNum, jsMul, jsAdd]
  · norm_num

/-- C5 (amended): every Order a successful submission persists for a cart of
items with numeric price and quantity has `total` equal to the sum of
`productPrice × quantity` over its own OrderItem rows; that total is moreover
non-negative whenever every supplied price and quantity is non-negative (the
handler trusts the client, so a negative supplied price makes it negative). -/
theorem order_total_invariant (parse : String → Option Json)
    (name address cartData : Option String) (items : List Json) (db : DB)
    (hp : parse (effectiveCartData cartData) = some (.arr items)) (hne : items ≠ [])
    (hw : ∀ i ∈ items, wellFormedItem i)
    (hnn : ∀ i ∈ items, 0 ≤ (jsToNum (Json.getField i "price")).getD 0 ∧
      0 ≤ (jsToNum (Json.getField i "quantity")).getD 0) :
    ∃ o : OrderRow,
      (checkout parse name address cartData true db).2.orders = db.orders ++ [o] ∧
      o.total = some ((o.orderItems.map itemRowAmount).sum) ∧
      ∃ t : ℚ, o.total = some t ∧ 0 ≤ t := by
  refine ⟨{ id := db.nextOrderId, name := name, address := address,
            total := some ((items.map specLineAmount).sum),
            orderItems := items.map snapshotItem }, ?_, ?_, ?_⟩
  · rw [checkout_accepted parse name address cartData items db hp hne]
    simp [cartTotal_eq_sum items (fun i hi => lineTotal_isSome_of_wellFormed i (hw i hi))]
  · rw [map_itemRowAmount_snapshot]
  · refine ⟨_, rfl, List.sum_nonneg ?_⟩
    intro x hx
    rw [List.mem_map] at hx
    obtain ⟨i, hi, rfl⟩ := hx
    obtain ⟨h1, h2⟩ := hnn i hi
    exact mul_nonneg h1 h2

/-- Concrete run of the amended C5 on the example cart. -/
theorem order_total_invariant_witness :
    demoParse (effectiveCartData (some chocCartStr)) = some (.arr [chocItemJson]) ∧
    ([chocItemJson] : List Json) ≠ [] ∧
    (∀ i ∈ [chocItemJson], wellFormedItem i) ∧
    (∀ i ∈ [chocItemJson], 0 ≤ (jsToNum (Json.getField i "price")).getD 0 ∧
      0 ≤ (jsToNum (Json.getField i "quantity")).getD 0) ∧
    ∃ o : OrderRow,
      (checkout demoParse (some "Bob") (some "2 High St") (some chocCartStr) true
        db0).2.orders = db0.orders ++ [o] ∧
      o.total = some ((o.orderItems.map itemRowAmount).sum) ∧
      ∃ t : ℚ, o.total = some t ∧ 0 ≤ t :=
  ⟨rfl, by simp,
    fun i hi => by
      rw [List.mem_singleton] at hi
      subst hi
      exact ⟨5 / 2, 3, rfl, rfl⟩,
    fun i hi => by
      rw [List.mem_singleton] at hi
      subst hi
      constructor
      · show (0 : ℚ) ≤ 5 / 2
        norm_num
      · show (0 : ℚ) ≤ 3
        norm_num,
    order_total_invariant demoParse (some "Bob") (some "2 High St")
      (some chocCartStr) [chocItemJson] db0 rfl (by simp)
      (fun i hi => by
        rw [List.mem_singleton] at hi
        subst hi
        exact ⟨5 / 2, 3, rfl, rfl⟩)
      (fun i hi => by
        rw [List.mem_singleton] at hi
        subst hi
        constructor
        · show (0 : ℚ) ≤ 5 / 2
          norm_num
        · show (0 : ℚ) ≤ 3
          norm_num)⟩

/-- C6: an accepted cart of N items is snapshotted into exactly N OrderItem
rows — `productName`, `productPrice` and `quantity` copied from each item's
`name`, `price` and `quantity` — the persisted total is the sum of price times
quantity over the items, and the success response carries the generated order
id in its body. -/
theorem submitOrder_snapshots (parse : String → Option Json)
    (name address cartData : Option String) (items : List Json) (db : DB)
    (hp : parse (effectiveCartData cartData) = some (.arr items)) (hne : items ≠ [])
    (hw : ∀ i ∈ items, wellFormedItem i) :
    ∃ o : OrderRow,
      (checkout parse name address cartData true db).2.orders = db.orders ++ [o] ∧
      o.orderItems.length = items.length ∧
      o.orderItems = items.map snapshotItem ∧
      o.total = some ((items.map specLineAmount).sum) ∧
      (checkout parse name address cartData true db).1 =
        ⟨200, "Thank you for your order! Your order ID is " ++ toString o.id ++ "."⟩ := by
  rw [checkout_accepted parse name address cartData items db hp hne]
  exact ⟨{ id := db.nextOrderId, name := name, address := address,
           total := cartTotal items, orderItems := items.map snapshotItem },
    rfl, by simp, rfl,
    cartTotal_eq_sum items (fun i hi => lineTotal_isSome_of_wellFormed i (hw i hi)),
    rfl⟩

/-- Concrete run of C6, which is the end-to-end example of the specification:
one chocolate item at price 2.50 and quantity 3 gives one snapshotted
OrderItem row and the total 7.50. -/
theorem submitOrder_snapshots_witness :
    demoParse (effectiveCartData (some chocCartStr)) = some (.arr [chocItemJson]) ∧
    ([chocItemJson] : List Json) ≠ [] ∧
    (∀ i ∈ [chocItemJson], wellFormedItem i) ∧
    (([chocItemJson].map specLineAmount).sum = 15 / 2) ∧
    ([chocItemJson].map snapshotItem =
      [{ productName := some (.str "WFX Dark Chocolate"),
         productPrice := some (.num (5 / 2)), quantity := some (.num 3) }]) ∧
    ∃ o : OrderRow,
      (checkout demoParse (some "Alice") (some "1 Main St") (some chocCartStr) true
        db0).2.orders = db0.orders ++ [o] ∧
      o.orderItems.length = ([chocItemJson] : List Json).length ∧
      o.orderItems = [chocItemJson].map snapshotItem ∧
      o.total = some (([chocItemJson].map specLineAmount).sum) ∧
      (checkout demoParse (some "Alice") (some "1 Main St") (some chocCartStr) true
        db0).1 =
        ⟨200, "Thank you for your order! Your order ID is " ++ toString o.id ++ "."⟩ :=
  ⟨rfl, by simp,
    fun i hi => by
      rw [List.mem_singleton] at hi
      subst hi
      exact ⟨5 / 2, 3, rfl, rfl⟩,
    by
      show specLineAmount chocItemJson + 0 = 15 / 2
      show (5 : ℚ) / 2 * 3 + 0 = 15 / 2
      norm_num,
    rfl,
    submitOrder_snapshots demoParse (some "Alice") (some "1 Main St")
      (some chocCartStr) [chocItemJson] db0 rfl (by simp)
      (fun i hi => by
        rw [List.mem_singleton] at hi
        subst hi
        exact ⟨5 / 2, 3, rfl, rfl⟩)⟩

/-- C7: the startup seeding is idempotent — running it twice with the same
defaults equals running it once (the second run is a no-op) — and from an
empty catalog one run inserts exactly one row per default. -/
theorem seedIfEmpty_idempotent (defaults : List ProductSeed) (db : DB) :
    seedIfEmpty defaults (seedIfEmpty defaults db) = seedIfEmpty defaults db ∧
    (seedIfEmpty defaults
        { products := [], orders := db.orders, nextProductId := db.nextProductId,
          nextOrderId := db.nextOrderId }).products.length = defaults.length := by
  have hlen : ∀ d : DB, (insertProducts defaults d).products.length =
      d.products.length + defaults.length := by
    intro d
    simp [insertProducts]
  constructor
  · by_cases h : db.products.length = 0
    · by_cases hd : defaults.length = 0
      · have hd' : defaults = [] := List.length_eq_zero.mp hd
        subst hd'
        simp [seedIfEmpty, insertProducts, h]
      · have h2 : (insertProducts defaults db).products.length ≠ 0 := by
          rw [hlen, h]
          omega
        simp [seedIfEmpty, h, h2]
    · simp [seedIfEmpty, h]
  · simp [seedIfEmpty, insertProducts]

/-- C8: the readiness probe answers 200 "ready" exactly when the storage
connection is initialised and 503 "not ready" exactly when it is not; both
outcomes are ordinary responses of the total handler. -/
theorem readyz_reflects_storage (isInitialized : Bool) :
    (readyz isInitialized = ⟨200, "ready"⟩ ↔ isInitialized = true) ∧
    (readyz isInitialized = ⟨503, "not ready"⟩ ↔ isInitialized = false) := by
  cases isInitialized <;> decide

/-- C10: the handler applies no validation to the buyer's name or address —
with any well-formed non-empty cart the save is attempted and, when storage
succeeds, answers 200 and persists the supplied values unchanged, even when
both are empty strings, instead of rejecting with a 400. -/
theorem submitOrder_no_buyer_validation (parse : String → Option Json)
    (buyerName buyerAddress : String) (cartData : Option String) (items : List Json)
    (db : DB)
    (hp : parse (effectiveCartData cartData) = some (.arr items)) (hne : items ≠ []) :
    (checkout parse (some buyerName) (some buyerAddress) cartData true db).1.status =
      200 ∧
    ∃ o : OrderRow,
      (checkout parse (some buyerName) (some buyerAddress) cartData true db).2.orders =
        db.orders ++ [o] ∧ o.name = some buyerName ∧ o.address = some buyerAddress := by
  rw [checkout_accepted parse (some buyerName) (some buyerAddress) cartData items db
    hp hne]
  exact ⟨rfl, ⟨{ id := db.nextOrderId, name := some buyerName,
                 address := some buyerAddress, total := cartTotal items,
                 orderItems := items.map snapshotItem }, rfl, rfl, rfl⟩⟩

/-- Concrete run of C10 with empty-string name and address on the example
cart: accepted and persisted unchanged. -/
theorem submitOrder_no_buyer_validation_witness :
    demoParse (effectiveCartData (some chocCartStr)) = some (.arr [chocItemJson]) ∧
    ([chocItemJson] : List Json) ≠ [] ∧
    ((checkout demoParse (some "") (some "") (some chocCartStr) true db0).1.status =
      200 ∧
    ∃ o : OrderRow,
      (checkout demoParse (some "") (some "") (some chocCartStr) true db0).2.orders =
        db0.orders ++ [o] ∧ o.name = some "" ∧ o.address = some "") :=
  ⟨rfl, by simp,
    submitOrder_no_buyer_validation demoParse "" "" (some chocCartStr) [chocItemJson]
      db0 rfl (by simp)⟩

end Storeshop
